import Mathlib

/-!
Verification development for the schema-object DDL extraction tool:
a shallow embedding of the DDL cleanup engine (`src/utils/ddl_cleaner.py`
together with the pattern list in `src/config.py`), the object-type
registry and query dispatch (`src/config.py`, `src/utils/oracle_queries.py`),
the extraction orchestrator (`src/oracle_lakebridge_extractor.py`) and the
inventory ledger (`src/utils/inventory.py`), with theorems settling the
stated behavioural claims.

Python regular-expression substitution (`re.sub`) is modelled by explicit
left-to-right scanning functions: at each position the fixed pattern is
tried (with the greedy semantics it has for these particular patterns,
which contain no constructs requiring backtracking beyond maximal-run
matching); on a hit the matched span is replaced and scanning resumes
after the match, on a miss the scanner advances one character.  Character
classes are modelled over ASCII, which covers all DDL text the tool
handles.
-/

namespace OracleExport

/-- Python `\s` whitespace class (ASCII part): space, tab, newline,
carriage return, form feed, vertical tab. -/
def isPySpace (c : Char) : Bool :=
  c = ' ' || c = '\t' || c = '\n' || c = '\r' || c = '\x0b' || c = '\x0c'

/-- Python `\d` digit class (ASCII part). -/
def isPyDigit (c : Char) : Bool :=
  '0' ≤ c && c ≤ '9'

/-- Python `\w` word class (ASCII part). -/
def isPyWord (c : Char) : Bool :=
  ('a' ≤ c && c ≤ 'z') || ('A' ≤ c && c ≤ 'Z') || isPyDigit c || c = '_'

/-- Identifier start class `[A-Za-z_]` of the tablespace-name patterns. -/
def isNameStart (c : Char) : Bool :=
  ('a' ≤ c && c ≤ 'z') || ('A' ≤ c && c ≤ 'Z') || c = '_'

/-- Identifier continuation class `[A-Za-z0-9_$#]` of the tablespace-name patterns. -/
def isNameChar (c : Char) : Bool :=
  isNameStart c || isPyDigit c || c = '$' || c = '#'

/-- Case-insensitive character comparison (`re.IGNORECASE`, ASCII). -/
def ciEq (a b : Char) : Bool :=
  a.toUpper = b.toUpper

/-- A matcher that consumes a pattern fragment from the front of the
input, returning the rest on success. -/
abbrev M := List Char → Option (List Char)

/-- Match a literal keyword case-insensitively. -/
def kwM : List Char → M
  | [], l => some l
  | _ :: _, [] => none
  | k :: ks, c :: cs => if ciEq k c then kwM ks cs else none

/-- Matcher for a keyword given as a string literal. -/
def kw (s : String) : M := kwM s.data

/-- Matcher for `\s+` (greedy; every pattern continues with a non-space character, so
the maximal run is the match). -/
def ws1 : M
  | c :: cs => if isPySpace c then some (cs.dropWhile isPySpace) else none
  | [] => none

/-- Matcher for `\s*` (greedy). -/
def ws0 : M := fun l => some (l.dropWhile isPySpace)

/-- Matcher for `\d+` (greedy). -/
def digits1 : M
  | c :: cs => if isPyDigit c then some (cs.dropWhile isPyDigit) else none
  | [] => none

/-- Matcher for `\w+` (greedy, at end of pattern). -/
def word1 : M
  | c :: cs => if isPyWord c then some (cs.dropWhile isPyWord) else none
  | [] => none

/-- Sequencing of two pattern fragments. -/
def seqM (a b : M) : M := fun l => (a l).bind b

/-- Matcher for `(...)?`, a group standing at the end of a pattern (greedy: taken
whenever it matches, otherwise skipped). -/
def optM (a : M) : M := fun l => some ((a l).getD l)

/-- Alternation `(A|B)` at the end of a pattern. -/
def altM (a b : M) : M := fun l => (a l).orElse (fun _ => b l)

/-- A literal character (case-sensitive: used for parentheses and quotes). -/
def charM (x : Char) : M
  | c :: cs => if c = x then some cs else none
  | [] => none

/-- Matcher for `[^stop]*stop` — consume up to and including the next `stop` character
(fails when no such character remains). -/
def upTo (stop : Char) : M := fun l =>
  match l.dropWhile (fun c => c ≠ stop) with
  | _ :: cs => some cs
  | [] => none

/-- Matcher for `[A-Za-z_][A-Za-z0-9_$#]*` (greedy). -/
def nameM : M
  | c :: cs => if isNameStart c then some (cs.dropWhile isNameChar) else none
  | [] => none

/-- Matcher for `"?[A-Za-z_][A-Za-z0-9_$#]*"?` — optional quotes around an identifier;
the opening quote, once taken, commits (retrying without it cannot
succeed because `"` is not an identifier-start character). -/
def qnameM : M := fun l =>
  match l with
  | '"' :: cs =>
    (nameM cs).map (fun r =>
      match r with
      | '"' :: rs => rs
      | _ => r)
  | _ =>
    (nameM l).map (fun r =>
      match r with
      | '"' :: rs => rs
      | _ => r)

/-- One scanning step of `re.sub`: on a hit, the replacement text and the
input remaining after the matched span. -/
abbrev Step := List Char → Option (List Char × List Char)

/-- The `re.sub` scanner: try the pattern at each position left to right;
on a hit emit the replacement and resume after the match, on a miss keep
the character and advance.  `fuel` bounds the recursion; every step of
every pattern used here consumes at least one character, so an initial
fuel of the input length is always sufficient. -/
def runSub (step : Step) : Nat → List Char → List Char
  | 0, l => l
  | _ + 1, [] => []
  | fuel + 1, c :: cs =>
    match step (c :: cs) with
    | some (rep, rest) => rep ++ runSub step fuel rest
    | none => c :: runSub step fuel cs

/-- Apply a substitution over the whole input. -/
def applySub (step : Step) (l : List Char) : List Char :=
  runSub step l.length l

/-- A cleanup-pattern pass `re.sub(r'\s+<tail>', '', s, flags=re.IGNORECASE)`:
mandatory leading whitespace, then the clause tail, replaced by nothing. -/
def clausePass (tail : M) (l : List Char) : List Char :=
  applySub (fun s => (seqM ws1 tail s).map (fun r => (([] : List Char), r))) l

/-- The 19 `DDL_CLEANUP_PATTERNS` of `src/config.py`, verbatim. -/
def DDL_CLEANUP_PATTERNS : List String :=
  [ "\\s+PCTFREE\\s+\\d+"
  , "\\s+PCTUSED\\s+\\d+"
  , "\\s+INITRANS\\s+\\d+"
  , "\\s+MAXTRANS\\s+\\d+"
  , "\\s+COMPRESS(\\s+\\d+)?"
  , "\\s+NOCOMPRESS"
  , "\\s+LOGGING"
  , "\\s+NOLOGGING"
  , "\\s+CACHE"
  , "\\s+NOCACHE"
  , "\\s+PARALLEL(\\s+\\d+)?"
  , "\\s+NOPARALLEL"
  , "\\s+MONITORING"
  , "\\s+NOMONITORING"
  , "\\s+SEGMENT\\s+CREATION\\s+(IMMEDIATE|DEFERRED)"
  , "\\s+FLASH_CACHE\\s+\\w+"
  , "\\s+CELL_FLASH_CACHE\\s+\\w+"
  , "\\s+ENABLE\\s+ROW\\s+MOVEMENT"
  , "\\s+DISABLE\\s+ROW\\s+MOVEMENT" ]

/-- Tail matcher (what follows the mandatory `\s+`) of each cleanup
pattern, in the same order as `DDL_CLEANUP_PATTERNS`. -/
def cleanupTails : List M :=
  [ seqM (kw "PCTFREE") (seqM ws1 digits1)
  , seqM (kw "PCTUSED") (seqM ws1 digits1)
  , seqM (kw "INITRANS") (seqM ws1 digits1)
  , seqM (kw "MAXTRANS") (seqM ws1 digits1)
  , seqM (kw "COMPRESS") (optM (seqM ws1 digits1))
  , kw "NOCOMPRESS"
  , kw "LOGGING"
  , kw "NOLOGGING"
  , kw "CACHE"
  , kw "NOCACHE"
  , seqM (kw "PARALLEL") (optM (seqM ws1 digits1))
  , kw "NOPARALLEL"
  , kw "MONITORING"
  , kw "NOMONITORING"
  , seqM (kw "SEGMENT") (seqM ws1 (seqM (kw "CREATION")
      (seqM ws1 (altM (kw "IMMEDIATE") (kw "DEFERRED")))))
  , seqM (kw "FLASH_CACHE") (seqM ws1 word1)
  , seqM (kw "CELL_FLASH_CACHE") (seqM ws1 word1)
  , seqM (kw "ENABLE") (seqM ws1 (seqM (kw "ROW") (seqM ws1 (kw "MOVEMENT"))))
  , seqM (kw "DISABLE") (seqM ws1 (seqM (kw "ROW") (seqM ws1 (kw "MOVEMENT")))) ]

/-- Model of `for pattern in DDL_CLEANUP_PATTERNS: cleaned = re.sub(pattern, '', cleaned, flags=re.IGNORECASE)`. -/
def applyCleanupPatterns (l : List Char) : List Char :=
  cleanupTails.foldl (fun acc t => clausePass t acc) l

/-- Tail of `\s+TABLESPACE\s+"?[A-Za-z_][A-Za-z0-9_$#]*"?`. -/
def tablespaceTail : M :=
  seqM (kw "TABLESPACE") (seqM ws1 qnameM)

/-- Tail of `\s+USING\s+INDEX\s+TABLESPACE\s+"?[A-Za-z_][A-Za-z0-9_$#]*"?`. -/
def usingIndexTablespaceTail : M :=
  seqM (kw "USING") (seqM ws1 (seqM (kw "INDEX")
    (seqM ws1 (seqM (kw "TABLESPACE") (seqM ws1 qnameM)))))

/-- Tail of `\s+STORAGE\s*\([^)]*\)` (DOTALL is immaterial: the classes
used already match newlines). -/
def storageTail : M :=
  seqM (kw "STORAGE") (seqM ws0 (seqM (charM '(') (upTo ')')))

/-- Tail of `\s+LOB\s*\([^)]*\)\s+STORE\s+AS\s+[^(]*\([^)]*\)`. -/
def lobTail : M :=
  seqM (kw "LOB") (seqM ws0 (seqM (charM '(') (seqM (upTo ')')
    (seqM ws1 (seqM (kw "STORE") (seqM ws1 (seqM (kw "AS")
      (seqM ws1 (seqM (upTo '(') (upTo ')'))))))))))

/-- Model of `re.sub(r'\n\s*\n\s*\n', '\n\n', s)`.  A match starts at a newline
whose following whitespace run contains at least two more newlines; the
greedy match extends through the last newline of the run. -/
def tripleNlStep : Step := fun l =>
  match l with
  | '\n' :: cs =>
    let run := cs.takeWhile isPySpace
    if 2 ≤ (run.filter (fun c => c = '\n')).length then
      let keep := (run.reverse.takeWhile (fun c => c ≠ '\n')).reverse
      some (['\n', '\n'], keep ++ cs.drop run.length)
    else none
  | _ => none

/-- Model of `re.sub(r'[ \t]+', ' ', s)`. -/
def spaceTabStep : Step := fun l =>
  match l with
  | c :: cs =>
    if c = ' ' || c = '\t' then
      some ([' '], cs.drop (cs.takeWhile (fun d => d = ' ' || d = '\t')).length)
    else none
  | [] => none

/-- Model of `re.sub(r' +\n', '\n', s)`. -/
def spaceNlStep : Step := fun l =>
  match l with
  | ' ' :: cs =>
    match cs.drop (cs.takeWhile (fun d => d = ' ')).length with
    | '\n' :: rest => some (['\n'], rest)
    | _ => none
  | _ => none

/-- Model of `re.sub(r'\(\s*\)', '', s)`. -/
def emptyParenStep : Step := fun l =>
  match l with
  | '(' :: cs =>
    match cs.drop (cs.takeWhile isPySpace).length with
    | ')' :: rest => some (([] : List Char), rest)
    | _ => none
  | _ => none

/-- Python `str.strip()`. -/
def pyStrip (l : List Char) : List Char :=
  ((l.dropWhile isPySpace).reverse.dropWhile isPySpace).reverse

/-- The whole substitution pipeline of `clean_ddl` up to and including the
final `strip()`, before terminator enforcement. -/
def cleanStripped (l : List Char) : List Char :=
  let c1 := applyCleanupPatterns l
  let c2 := clausePass tablespaceTail c1
  let c3 := clausePass usingIndexTablespaceTail c2
  let c4 := clausePass storageTail c3
  let c5 := clausePass lobTail c4
  let c6 := applySub tripleNlStep c5
  let c7 := applySub spaceTabStep c6
  let c8 := applySub spaceNlStep c7
  let c9 := applySub emptyParenStep c8
  pyStrip c9

/-- Model of `if cleaned and not cleaned.endswith(';'): cleaned += ';'`. -/
def addTerminator (l : List Char) : List Char :=
  if l = [] then [] else if l.getLast? = some ';' then l else l ++ [';']

/-- Function `clean_ddl` of `src/utils/ddl_cleaner.py` (string input; the falsy
`None` input is covered by `cleanDdlOpt`). -/
def clean_ddl (ddl : String) : String :=
  if ddl = "" then "" else String.mk (addTerminator (cleanStripped ddl.data))

/-- Wrapper for `clean_ddl` on an optional input: Python's `if not ddl: return ""`
sends both `None` and `""` to the empty string. -/
def cleanDdlOpt (ddl : Option String) : String :=
  clean_ddl (ddl.getD "")

/-- Python truthiness of an optional string: `None` and `""` are falsy. -/
def truthyOpt (s : Option String) : Bool :=
  match s with
  | none => false
  | some t => t ≠ ""

/-- Python `'\n'.join(parts)`. -/
def joinNl : List String → String
  | [] => ""
  | [p] => p
  | p :: rest => p ++ "\n" ++ joinNl rest

/-- Function `clean_package_ddl` of `src/utils/ddl_cleaner.py`: build the `parts`
list and join with `'\n'`. -/
def clean_package_ddl (spec_ddl body_ddl : Option String) : String :=
  let parts : List String :=
    if truthyOpt spec_ddl then
      ["-- Package Specification", clean_ddl (spec_ddl.getD "")]
    else []
  let parts : List String :=
    if truthyOpt body_ddl then
      (if parts ≠ [] then parts ++ ["\n"] else parts)
        ++ ["-- Package Body", clean_ddl (body_ddl.getD "")]
    else parts
  joinNl parts

/-- Function `clean_type_ddl` of `src/utils/ddl_cleaner.py`: like the package
combinator but the specification part carries no section marker. -/
def clean_type_ddl (type_ddl body_ddl : Option String) : String :=
  let parts : List String :=
    if truthyOpt type_ddl then [clean_ddl (type_ddl.getD "")] else []
  let parts : List String :=
    if truthyOpt body_ddl then
      (if parts ≠ [] then parts ++ ["\n"] else parts)
        ++ ["-- Type Body", clean_ddl (body_ddl.getD "")]
    else parts
  joinNl parts

/-! ## Object catalog (`src/config.py`, `src/utils/oracle_queries.py`) -/

/-- Output configuration of one supported object type. -/
structure ObjConfig where
  folder : String
  ext : String
deriving DecidableEq, Repr

/-- Registry `OBJECT_TYPES` of `src/config.py`: the fixed registry, in its
registration order. -/
def OBJECT_TYPES : List (String × ObjConfig) :=
  [ ("TABLE", ⟨"tables", ".sql"⟩)
  , ("VIEW", ⟨"views", ".sql"⟩)
  , ("MATERIALIZED_VIEW", ⟨"materialized_views", ".sql"⟩)
  , ("PROCEDURE", ⟨"procedures", ".sql"⟩)
  , ("FUNCTION", ⟨"functions", ".sql"⟩)
  , ("PACKAGE", ⟨"packages", ".sql"⟩)
  , ("TRIGGER", ⟨"triggers", ".sql"⟩)
  , ("SEQUENCE", ⟨"sequences", ".sql"⟩)
  , ("SYNONYM", ⟨"synonyms", ".sql"⟩)
  , ("TYPE", ⟨"types", ".sql"⟩)
  , ("INDEX", ⟨"indexes", ".sql"⟩)
  , ("DATABASE LINK", ⟨"db_links", ".sql"⟩) ]

/-- Identities of the twelve enumeration queries of
`OracleQueries` (`src/utils/oracle_queries.py`); the SQL text itself is
not interpreted by this development. -/
inductive QueryId where
  | TABLES | VIEWS | PROCEDURES | FUNCTIONS | PACKAGES | INDEXES
  | SEQUENCES | TRIGGERS | TYPES | MATERIALIZED_VIEWS | SYNONYMS
  | DATABASE_LINKS
deriving DecidableEq, Repr

/-- Mapping `OracleQueries.QUERY_MAP`. -/
def QUERY_MAP : List (String × QueryId) :=
  [ ("TABLE", .TABLES)
  , ("VIEW", .VIEWS)
  , ("PROCEDURE", .PROCEDURES)
  , ("FUNCTION", .FUNCTIONS)
  , ("PACKAGE", .PACKAGES)
  , ("INDEX", .INDEXES)
  , ("SEQUENCE", .SEQUENCES)
  , ("TRIGGER", .TRIGGERS)
  , ("TYPE", .TYPES)
  , ("MATERIALIZED_VIEW", .MATERIALIZED_VIEWS)
  , ("SYNONYM", .SYNONYMS)
  , ("DATABASE LINK", .DATABASE_LINKS) ]

/-- Association-list lookup (first match), the model of Python dict
access for the dictionaries built here. -/
def lookupA {α : Type} : List (String × α) → String → Option α
  | [], _ => none
  | (a, v) :: rest, k => if a = k then some v else lookupA rest k

/-- Function `OracleQueries.get_query`: raises `KeyError` (modelled as `.error`)
for an object type outside `QUERY_MAP`. -/
def get_query (object_type : String) : Except String QueryId :=
  match lookupA QUERY_MAP object_type with
  | some q => .ok q
  | none => .error ("Unsupported object type: " ++ object_type)

/-- The metadata-type mapping inlined at the top of `extract_ddl`
(`src/oracle_lakebridge_extractor.py`, lines 146-151). -/
def metadataTypeFor (object_type : String) : String :=
  if object_type = "MATERIALIZED_VIEW" then "MATERIALIZED_VIEW"
  else if object_type = "DATABASE LINK" then "DB_LINK"
  else object_type

/-! ## Inventory (`src/utils/inventory.py`) -/

/-- One entry of a schema's `errors` list. -/
structure ErrorEntry where
  object_type : String
  object_name : String
  error : String
deriving DecidableEq, Repr

/-- Per-schema tracking data initialised by `InventoryWriter.add_schema`. -/
structure SchemaData where
  objects_extracted : List (String × Nat)
  objects_failed : List (String × Nat)
  total_files : Nat
  table_details : List (List (String × String))
  procedure_details : List (List (String × String))
  package_details : List (List (String × String))
  source_metrics : List (String × List (String × (Nat × Nat)))
  errors : List ErrorEntry
deriving DecidableEq, Repr

/-- The zeroed `SchemaData` created by `add_schema`. -/
def initSchemaData : SchemaData :=
  ⟨[], [], 0, [], [], [], [], []⟩

/-- State of `InventoryWriter` (the extraction date is an uninterpreted string). -/
structure InventoryWriter where
  output_dir : String
  source_database : String
  extraction_date : String
  schemas : List (String × SchemaData)
deriving DecidableEq, Repr

/-- Method `InventoryWriter.add_schema`: initialise tracking for a schema if it
is not yet present (Python dict insertion order: appended at the end). -/
def add_schema (inv : InventoryWriter) (schema : String) : InventoryWriter :=
  if (lookupA inv.schemas schema).isSome then inv
  else { inv with schemas := inv.schemas ++ [(schema, initSchemaData)] }

/-- Model of `if object_type not in d: d[object_type] = 0; d[object_type] += 1`. -/
def bump : List (String × Nat) → String → List (String × Nat)
  | [], k => [(k, 1)]
  | (a, n) :: rest, k =>
    if a = k then (a, n + 1) :: rest else (a, n) :: bump rest k

/-- Replace the data of the (first) entry with the given key. -/
def updateSchemas : List (String × SchemaData) → String →
    (SchemaData → SchemaData) → List (String × SchemaData)
  | [], _, _ => []
  | (a, d) :: rest, k, f =>
    if a = k then (a, f d) :: rest else (a, d) :: updateSchemas rest k f

/-- The per-schema update performed by `record_extraction`: on success
increment the type's success counter and `total_files`; on failure
increment the type's failure counter and, only when a truthy error
message was given, append one error entry. -/
def recordUpdate (object_type object_name : String) (success : Bool)
    (error_message : Option String) (d : SchemaData) : SchemaData :=
  if success then
    { d with
      objects_extracted := bump d.objects_extracted object_type
      total_files := d.total_files + 1 }
  else
    let d := { d with objects_failed := bump d.objects_failed object_type }
    if truthyOpt error_message then
      { d with errors := d.errors ++
          [⟨object_type, object_name, error_message.getD ""⟩] }
    else d

/-- Method `InventoryWriter.record_extraction`. -/
def record_extraction (inv : InventoryWriter) (schema object_type object_name : String)
    (success : Bool) (error_message : Option String) : InventoryWriter :=
  let inv := add_schema inv schema
  { inv with
    schemas := updateSchemas inv.schemas schema
      (recordUpdate object_type object_name success error_message) }

/-- Method `InventoryWriter.add_table_details`. -/
def add_table_details (inv : InventoryWriter) (schema : String)
    (details : List (List (String × String))) : InventoryWriter :=
  let inv := add_schema inv schema
  { inv with schemas :=
      updateSchemas inv.schemas schema (fun d => { d with table_details := details }) }

/-- Method `InventoryWriter.add_procedure_details`. -/
def add_procedure_details (inv : InventoryWriter) (schema : String)
    (details : List (List (String × String))) : InventoryWriter :=
  let inv := add_schema inv schema
  { inv with schemas :=
      updateSchemas inv.schemas schema (fun d => { d with procedure_details := details }) }

/-- Method `InventoryWriter.add_package_details`. -/
def add_package_details (inv : InventoryWriter) (schema : String)
    (details : List (List (String × String))) : InventoryWriter :=
  let inv := add_schema inv schema
  { inv with schemas :=
      updateSchemas inv.schemas schema (fun d => { d with package_details := details }) }

/-- Method `InventoryWriter.add_source_metrics`. -/
def add_source_metrics (inv : InventoryWriter) (schema : String)
    (metrics : List (String × List (String × (Nat × Nat)))) : InventoryWriter :=
  let inv := add_schema inv schema
  { inv with schemas :=
      updateSchemas inv.schemas schema (fun d => { d with source_metrics := metrics }) }

/-! ## Extraction orchestrator (`src/oracle_lakebridge_extractor.py`) -/

/-- Substring test on character lists (Python's `'x' in s`). -/
def prefOf : List Char → List Char → Bool
  | [], _ => true
  | _ :: _, [] => false
  | a :: as_, b :: bs => a = b && prefOf as_ bs

/-- Substring test continued: does `needle` occur anywhere in `hay`? -/
def hasSub : List Char → List Char → Bool
  | hay, needle =>
    match hay with
    | [] => needle.isEmpty
    | _ :: cs => prefOf needle hay || hasSub cs needle

/-- Test `needle in hay` for strings. -/
def containsSub (hay needle : String) : Bool :=
  hasSub hay.data needle.data

/-- The metadata source and output sink, modelled as one oracle: each
operation either raises (`.error` with the exception text) or returns its
payload.  A fetched row is `Option String` (`none`: no row or null
payload); an existence probe returns the `COUNT(*)` value. -/
structure DbOracle where
  fetchDDL : String → String → String → Except String (Option String)
  pkgBodyCount : String → String → Except String (Option Nat)
  pkgBodyDDL : String → String → Except String (Option String)
  typeBodyCount : String → String → Except String (Option Nat)
  typeBodyDDL : String → String → Except String (Option String)
  listObjects : String → String → Except String (List (String × String))
  writeFile : String → String → Except String Unit
  tableDetails : String → Except String (List (List (String × String)))
  procDetails : String → Except String (List (List (String × String)))
  pkgDetails : String → Except String (List (List (String × String)))
  sourceMetrics : String → Except String (List (String × List (String × (Nat × Nat))))

/-- Function `extract_ddl`: map the object type to its metadata type, fetch, treat
`ORA-31603` / `ORA-00942` exceptions as not-found (`none`), re-raise any
other exception, and return `none` for an absent or empty payload. -/
def extract_ddl (o : DbOracle) (object_type object_name schema : String) :
    Except String (Option String) :=
  match o.fetchDDL (metadataTypeFor object_type) object_name schema.toUpper with
  | .ok r => .ok (if truthyOpt r then r else none)
  | .error e =>
    if containsSub e "ORA-31603" || containsSub e "ORA-00942" then .ok none
    else .error e

/-- Function `extract_package_body`: existence probe (outside the `try`, so its
exceptions propagate), then body fetch with every exception swallowed to
`none`. -/
def extract_package_body (o : DbOracle) (package_name schema : String) :
    Except String (Option String) :=
  match o.pkgBodyCount schema.toUpper package_name with
  | .error e => .error e
  | .ok none => .ok none
  | .ok (some 0) => .ok none
  | .ok (some (_ + 1)) =>
    match o.pkgBodyDDL package_name schema.toUpper with
    | .error _ => .ok none
    | .ok p => .ok (if truthyOpt p then p else none)

/-- Function `extract_type_body`: same shape as `extract_package_body`. -/
def extract_type_body (o : DbOracle) (type_name schema : String) :
    Except String (Option String) :=
  match o.typeBodyCount schema.toUpper type_name with
  | .error e => .error e
  | .ok none => .ok none
  | .ok (some 0) => .ok none
  | .ok (some (_ + 1)) =>
    match o.typeBodyDDL type_name schema.toUpper with
    | .error _ => .ok none
    | .ok p => .ok (if truthyOpt p then p else none)

/-- Function `get_schema_objects`: query lookup (`KeyError` for unsupported types)
then enumeration via the metadata source. -/
def get_schema_objects (o : DbOracle) (schema object_type : String) :
    Except String (List (String × String)) :=
  match get_query object_type with
  | .error e => .error e
  | .ok _ => o.listObjects schema.toUpper object_type

/-- Method `LakebridgeExtractor._extract_and_save_object`: the whole body runs
under `try/except Exception`, so the result is a plain value — the new
inventory, the files written, and the success flag — never an escaping
exception. -/
def extractAndSaveObject (o : DbOracle) (inv : InventoryWriter)
    (obj_type obj_name schema : String) (cfg : ObjConfig) :
    InventoryWriter × List (String × String) × Bool :=
  match extract_ddl o obj_type obj_name schema with
  | .error e =>
    (record_extraction inv schema obj_type obj_name false (some e), [], false)
  | .ok none =>
    (record_extraction inv schema obj_type obj_name false
      (some "Object not found or no privileges"), [], false)
  | .ok (some ddl) =>
    let cleanedE : Except String String :=
      if obj_type = "PACKAGE" then
        (extract_package_body o obj_name schema).map
          (fun b => clean_package_ddl (some ddl) b)
      else if obj_type = "TYPE" then
        (extract_type_body o obj_name schema).map
          (fun b => clean_type_ddl (some ddl) b)
      else .ok (clean_ddl ddl)
    match cleanedE with
    | .error e =>
      (record_extraction inv schema obj_type obj_name false (some e), [], false)
    | .ok cleaned =>
      let filepath := inv.output_dir ++ "/" ++ schema.toLower ++ "/"
        ++ cfg.folder ++ "/" ++ obj_name.toLower ++ cfg.ext
      match o.writeFile filepath cleaned with
      | .error e =>
        (record_extraction inv schema obj_type obj_name false (some e), [], false)
      | .ok _ =>
        (record_extraction inv schema obj_type obj_name true none,
          [(filepath, cleaned)], true)

/-- The inner-loop body of `_extract_schema`: extract one enumerated
object, accumulating the inventory and the written files. -/
def objStep (o : DbOracle) (obj_type schema : String) (cfg : ObjConfig)
    (acc : InventoryWriter × List (String × String)) (ob : String × String) :
    InventoryWriter × List (String × String) :=
  let r := extractAndSaveObject o acc.1 obj_type ob.2 schema cfg
  (r.1, acc.2 ++ r.2.1)

/-- The per-type body of `_extract_schema`: enumerate the type's objects
(`KeyError` and any other enumeration failure are caught, skipping only
this type) and run the inner loop. -/
def typeStep (o : DbOracle) (schema : String)
    (acc : InventoryWriter × List (String × String)) (tc : String × ObjConfig) :
    InventoryWriter × List (String × String) :=
  match get_schema_objects o schema tc.1 with
  | .error _ => acc
  | .ok objs => objs.foldl (objStep o tc.1 schema tc.2) acc

/-- The metadata-detail collection phase at the end of
`_extract_schema`: each of the four collections is attempted and its
exception, if any, is caught and only skips that collection. -/
def addDetails (o : DbOracle) (schema : String) (inv0 : InventoryWriter) :
    InventoryWriter :=
  let inv := match o.tableDetails schema with
    | .ok d => add_table_details inv0 schema d
    | .error _ => inv0
  let inv := match o.procDetails schema with
    | .ok d => add_procedure_details inv schema d
    | .error _ => inv
  let inv := match o.pkgDetails schema with
    | .ok d => add_package_details inv schema d
    | .error _ => inv
  match o.sourceMetrics schema with
  | .ok d => add_source_metrics inv schema d
  | .error _ => inv

/-- Method `LakebridgeExtractor._extract_schema`: every object type of the
registry in order; a failing enumeration of one type is caught and only
skips that type; each enumerated object goes through
`extractAndSaveObject`; then the four metadata-detail collections. -/
def extractSchema (o : DbOracle) (inv0 : InventoryWriter) (schema : String) :
    InventoryWriter × List (String × String) :=
  let core := OBJECT_TYPES.foldl (typeStep o schema) (add_schema inv0 schema, [])
  (addDetails o schema core.1, core.2)

/-! ## Derived measurements over the inventory -/

/-- The counter stored for a key (0 when the key is absent, as after
`add_schema`). -/
def countOf (d : List (String × Nat)) (k : String) : Nat :=
  (lookupA d k).getD 0

/-- Sum of all counters of one counter dictionary. -/
def sumCounts (d : List (String × Nat)) : Nat :=
  (d.map Prod.snd).sum

/-- Number of extraction records (successes plus failures) a schema's
data accounts for. -/
def recordedOf (d : SchemaData) : Nat :=
  sumCounts d.objects_extracted + sumCounts d.objects_failed

/-- Number of extraction records the whole inventory accounts for. -/
def totalRecorded (inv : InventoryWriter) : Nat :=
  (inv.schemas.map (fun p => recordedOf p.2)).sum

/-- The data tracked for a schema (zeroed when the schema is untracked). -/
def schemaDataOf (inv : InventoryWriter) (s : String) : SchemaData :=
  (lookupA inv.schemas s).getD initSchemaData

/-- Success counter of one (schema, object type) pair. -/
def getSucc (inv : InventoryWriter) (s t : String) : Nat :=
  countOf (schemaDataOf inv s).objects_extracted t

/-- Failure counter of one (schema, object type) pair. -/
def getFail (inv : InventoryWriter) (s t : String) : Nat :=
  countOf (schemaDataOf inv s).objects_failed t

/-- Error list of one schema. -/
def getErrors (inv : InventoryWriter) (s : String) : List ErrorEntry :=
  (schemaDataOf inv s).errors

/-- How many objects one registry type enumerates under an oracle (0 when
the enumeration itself fails and is skipped). -/
def enumLen (o : DbOracle) (schema : String) (tc : String × ObjConfig) : Nat :=
  match get_schema_objects o schema tc.1 with
  | .ok objs => objs.length
  | .error _ => 0

/-- Total number of objects enumerated for a schema across the registry. -/
def enumeratedCount (o : DbOracle) (schema : String) : Nat :=
  (OBJECT_TYPES.map (enumLen o schema)).sum

/-! ## Auxiliary notions for the cleaner claims -/

/-- Whitespace-separated tokens of a character list (`fuel` bounds the
recursion; the input length always suffices since every token consumes at
least one character). -/
def tokensOf : Nat → List Char → List (List Char)
  | 0, _ => []
  | fuel + 1, l =>
    match l.dropWhile isPySpace with
    | [] => []
    | c :: cs =>
      let tok := (c :: cs).takeWhile (fun d => !(isPySpace d))
      tok :: tokensOf fuel ((c :: cs).drop tok.length)

/-- Whitespace-separated tokens of a string. -/
def tokens (s : String) : List String :=
  (tokensOf s.data.length s.data).map String.mk

/-- The input contains none of the removable vendor clauses: every
clause-removal pass of `clean_ddl` (the 19 configured patterns, the two
tablespace passes, the storage pass and the LOB pass) leaves it
unchanged. -/
def noRemovableClauses (s : String) : Bool :=
  (applyCleanupPatterns s.data == s.data)
    && (clausePass tablespaceTail s.data == s.data)
    && (clausePass usingIndexTablespaceTail s.data == s.data)
    && (clausePass storageTail s.data == s.data)
    && (clausePass lobTail s.data == s.data)

/-! ## Concrete fixtures used by witnesses and counterexamples -/

/-- A fresh inventory, as built by `LakebridgeExtractor.__init__`. -/
def invEx : InventoryWriter :=
  ⟨"/out", "ORCL", "2024-01-01T00:00:00", []⟩

/-- A metadata source on which every operation succeeds trivially. -/
def oraBase : DbOracle where
  fetchDDL := fun _ _ _ => .ok none
  pkgBodyCount := fun _ _ => .ok (some 0)
  pkgBodyDDL := fun _ _ => .ok none
  typeBodyCount := fun _ _ => .ok (some 0)
  typeBodyDDL := fun _ _ => .ok none
  listObjects := fun _ _ => .ok []
  writeFile := fun _ _ => .ok ()
  tableDetails := fun _ => .ok []
  procDetails := fun _ => .ok []
  pkgDetails := fun _ => .ok []
  sourceMetrics := fun _ => .ok []

/-- A metadata source whose DDL fetch raises the recognizable not-found
error. -/
def oraNotFound : DbOracle :=
  { oraBase with
    fetchDDL := fun _ _ _ => .error "ORA-31603: object not found in schema" }

/-- A metadata source whose body-existence probes report a body present
while the body fetches themselves raise. -/
def oraBodyFail : DbOracle :=
  { oraBase with
    fetchDDL := fun _ _ _ => .ok (some "CREATE OR REPLACE PACKAGE p AS END")
    pkgBodyCount := fun _ _ => .ok (some 1)
    pkgBodyDDL := fun _ _ => .error "ORA-04063: package body PB has errors"
    typeBodyCount := fun _ _ => .ok (some 1)
    typeBodyDDL := fun _ _ => .error "ORA-04063: type body TB has errors" }

/-! ## Association-list and counter lemmas -/

theorem lookupA_append {α : Type} (l1 l2 : List (String × α)) (k : String) :
    lookupA (l1 ++ l2) k =
      match lookupA l1 k with
      | some v => some v
      | none => lookupA l2 k := by
  induction l1 with
  | nil => simp [lookupA]
  | cons p rest ih =>
    obtain ⟨a, v⟩ := p
    by_cases h : a = k <;> simp [lookupA, h, ih]

theorem lookupA_eq_none {α : Type} (l : List (String × α)) (k : String)
    (h : k ∉ l.map Prod.fst) : lookupA l k = none := by
  induction l with
  | nil => rfl
  | cons p rest ih =>
    obtain ⟨a, v⟩ := p
    simp only [List.map_cons, List.mem_cons] at h
    push_neg at h
    have ha : a ≠ k := Ne.symm h.1
    simp [lookupA, ha, ih h.2]

theorem countOf_bump_self (d : List (String × Nat)) (k : String) :
    countOf (bump d k) k = countOf d k + 1 := by
  induction d with
  | nil => simp [bump, countOf, lookupA]
  | cons p rest ih =>
    obtain ⟨a, n⟩ := p
    by_cases h : a = k
    · simp [bump, countOf, lookupA, h]
    · simpa [bump, countOf, lookupA, h] using ih

theorem countOf_bump_ne (d : List (String × Nat)) (k k' : String)
    (h : k' ≠ k) : countOf (bump d k) k' = countOf d k' := by
  induction d with
  | nil =>
    have hk : k ≠ k' := Ne.symm h
    simp [bump, countOf, lookupA, hk]
  | cons p rest ih =>
    obtain ⟨a, n⟩ := p
    by_cases ha : a = k
    · have hk : k ≠ k' := Ne.symm h
      simp [bump, countOf, lookupA, ha, hk]
    · by_cases ha' : a = k'
      · simp [bump, countOf, lookupA, ha, ha', h]
      · simpa [bump, countOf, lookupA, ha, ha'] using ih

theorem sumCounts_bump (d : List (String × Nat)) (k : String) :
    sumCounts (bump d k) = sumCounts d + 1 := by
  induction d with
  | nil => simp [bump, sumCounts]
  | cons p rest ih =>
    obtain ⟨a, n⟩ := p
    by_cases h : a = k
    · simp [bump, sumCounts, h]
      omega
    · simp only [bump, sumCounts, h, if_false, List.map_cons, List.sum_cons]
      simp only [sumCounts] at ih
      omega

theorem lookupA_updateSchemas_self (l : List (String × SchemaData)) (k : String)
    (f : SchemaData → SchemaData) :
    lookupA (updateSchemas l k f) k = (lookupA l k).map f := by
  induction l with
  | nil => simp [updateSchemas, lookupA]
  | cons p rest ih =>
    obtain ⟨a, d⟩ := p
    by_cases h : a = k <;> simp [updateSchemas, lookupA, h, ih]

theorem lookupA_updateSchemas_ne (l : List (String × SchemaData)) (k k' : String)
    (f : SchemaData → SchemaData) (h : k' ≠ k) :
    lookupA (updateSchemas l k f) k' = lookupA l k' := by
  induction l with
  | nil => simp [updateSchemas]
  | cons p rest ih =>
    obtain ⟨a, d⟩ := p
    by_cases ha : a = k
    · have hk : k ≠ k' := Ne.symm h
      simp [updateSchemas, lookupA, ha, hk]
    · by_cases ha' : a = k'
      · simp [updateSchemas, lookupA, ha, ha', h]
      · simp [updateSchemas, lookupA, ha, ha', ih]

theorem sumRec_updateSchemas (l : List (String × SchemaData)) (k : String)
    (f : SchemaData → SchemaData) (d : SchemaData) (h : lookupA l k = some d) :
    ((updateSchemas l k f).map (fun p => recordedOf p.2)).sum + recordedOf d =
      (l.map (fun p => recordedOf p.2)).sum + recordedOf (f d) := by
  induction l with
  | nil => simp [lookupA] at h
  | cons p rest ih =>
    obtain ⟨a, d'⟩ := p
    by_cases ha : a = k
    · simp [lookupA, ha] at h
      subst h
      simp [updateSchemas, ha]
      omega
    · simp [lookupA, ha] at h
      have := ih h
      simp [updateSchemas, ha]
      omega

theorem sumRec_updateSchemas_const (l : List (String × SchemaData)) (k : String)
    (f : SchemaData → SchemaData) (h : ∀ d, recordedOf (f d) = recordedOf d) :
    ((updateSchemas l k f).map (fun p => recordedOf p.2)).sum =
      (l.map (fun p => recordedOf p.2)).sum := by
  induction l with
  | nil => simp [updateSchemas]
  | cons p rest ih =>
    obtain ⟨a, d'⟩ := p
    by_cases ha : a = k <;> simp [updateSchemas, ha, h, ih]

theorem recordedOf_init : recordedOf initSchemaData = 0 := by
  simp [recordedOf, initSchemaData, sumCounts]

theorem lookupA_add_schema_self (inv : InventoryWriter) (s : String) :
    lookupA (add_schema inv s).schemas s = some (schemaDataOf inv s) := by
  unfold add_schema schemaDataOf
  cases h : lookupA inv.schemas s with
  | some d => simp [h]
  | none =>
    simp [h, lookupA_append, lookupA]

theorem lookupA_add_schema_ne (inv : InventoryWriter) (s s' : String)
    (h : s' ≠ s) :
    lookupA (add_schema inv s).schemas s' = lookupA inv.schemas s' := by
  unfold add_schema
  cases hh : lookupA inv.schemas s with
  | some d => simp [hh]
  | none =>
    have hs : s ≠ s' := Ne.symm h
    simp [hh, lookupA_append, lookupA, hs]
    cases lookupA inv.schemas s' <;> simp

theorem totalRecorded_add_schema (inv : InventoryWriter) (s : String) :
    totalRecorded (add_schema inv s) = totalRecorded inv := by
  unfold add_schema totalRecorded
  cases h : lookupA inv.schemas s with
  | some d => simp [h]
  | none => simp [h, recordedOf_init]

/-! ## Effects of `record_extraction` -/

theorem recordedOf_recordUpdate (t n : String) (b : Bool) (m : Option String)
    (d : SchemaData) :
    recordedOf (recordUpdate t n b m d) = recordedOf d + 1 := by
  cases b with
  | true =>
    simp [recordUpdate, recordedOf, sumCounts_bump]
    omega
  | false =>
    simp only [recordUpdate, Bool.false_eq_true, if_false]
    split <;> (simp [recordedOf, sumCounts_bump]; omega)

theorem totalRecorded_record (inv : InventoryWriter) (s t n : String)
    (b : Bool) (m : Option String) :
    totalRecorded (record_extraction inv s t n b m) = totalRecorded inv + 1 := by
  have h1 := lookupA_add_schema_self inv s
  have h2 := sumRec_updateSchemas (add_schema inv s).schemas s
    (recordUpdate t n b m) (schemaDataOf inv s) h1
  have h3 := totalRecorded_add_schema inv s
  have h4 := recordedOf_recordUpdate t n b m (schemaDataOf inv s)
  simp only [record_extraction, totalRecorded] at *
  omega

theorem schemaDataOf_record_self (inv : InventoryWriter) (s t n : String)
    (b : Bool) (m : Option String) :
    schemaDataOf (record_extraction inv s t n b m) s =
      recordUpdate t n b m (schemaDataOf inv s) := by
  have h1 := lookupA_add_schema_self inv s
  simp only [record_extraction, schemaDataOf, lookupA_updateSchemas_self, h1]
  rfl

theorem lookupA_record_ne (inv : InventoryWriter) (s s' t n : String)
    (b : Bool) (m : Option String) (h : s' ≠ s) :
    lookupA (record_extraction inv s t n b m).schemas s' =
      lookupA inv.schemas s' := by
  simp only [record_extraction]
  rw [lookupA_updateSchemas_ne _ _ _ _ h, lookupA_add_schema_ne inv s s' h]

/-! ## Effects of the orchestrator -/

theorem extractAndSaveObject_shape (o : DbOracle) (inv : InventoryWriter)
    (t n s : String) (cfg : ObjConfig) :
    ∃ ok msg w, extractAndSaveObject o inv t n s cfg =
        (record_extraction inv s t n ok msg, w, ok)
      ∧ ((ok = true ∧ msg = none ∧ w.length = 1)
          ∨ (ok = false ∧ (∃ mm, msg = some mm) ∧ w = [])) := by
  cases h : extract_ddl o t n s with
  | error e =>
    exact ⟨false, some e, [], by simp [extractAndSaveObject, h],
      Or.inr ⟨rfl, ⟨e, rfl⟩, rfl⟩⟩
  | ok r =>
    cases r with
    | none =>
      exact ⟨false, some "Object not found or no privileges", [],
        by simp [extractAndSaveObject, h], Or.inr ⟨rfl, ⟨_, rfl⟩, rfl⟩⟩
    | some ddl =>
      cases hc : (if t = "PACKAGE" then
          (extract_package_body o n s).map (fun b => clean_package_ddl (some ddl) b)
        else if t = "TYPE" then
          (extract_type_body o n s).map (fun b => clean_type_ddl (some ddl) b)
        else .ok (clean_ddl ddl)) with
      | error e2 =>
        exact ⟨false, some e2, [], by simp [extractAndSaveObject, h, hc],
          Or.inr ⟨rfl, ⟨e2, rfl⟩, rfl⟩⟩
      | ok cleaned =>
        cases hw : o.writeFile (inv.output_dir ++ "/" ++ s.toLower ++ "/"
            ++ cfg.folder ++ "/" ++ n.toLower ++ cfg.ext) cleaned with
        | error e3 =>
          exact ⟨false, some e3, [], by simp [extractAndSaveObject, h, hc, hw],
            Or.inr ⟨rfl, ⟨e3, rfl⟩, rfl⟩⟩
        | ok u =>
          exact ⟨true, none, [(inv.output_dir ++ "/" ++ s.toLower ++ "/"
              ++ cfg.folder ++ "/" ++ n.toLower ++ cfg.ext, cleaned)],
            by simp [extractAndSaveObject, h, hc, hw], Or.inl ⟨rfl, rfl, rfl⟩⟩

theorem totalRecorded_extractAndSave (o : DbOracle) (inv : InventoryWriter)
    (t n s : String) (cfg : ObjConfig) :
    totalRecorded (extractAndSaveObject o inv t n s cfg).1 =
      totalRecorded inv + 1 := by
  obtain ⟨ok, msg, w, he, _⟩ := extractAndSaveObject_shape o inv t n s cfg
  rw [he]
  exact totalRecorded_record inv s t n ok msg

theorem totalRecorded_objStep (o : DbOracle) (t s : String) (cfg : ObjConfig)
    (acc : InventoryWriter × List (String × String)) (ob : String × String) :
    totalRecorded (objStep o t s cfg acc ob).1 = totalRecorded acc.1 + 1 := by
  simp [objStep, totalRecorded_extractAndSave]

theorem objFold_total (o : DbOracle) (t s : String) (cfg : ObjConfig)
    (objs : List (String × String)) :
    ∀ acc : InventoryWriter × List (String × String),
    totalRecorded ((objs.foldl (objStep o t s cfg) acc).1) =
      totalRecorded acc.1 + objs.length := by
  induction objs with
  | nil => intro acc; simp
  | cons ob rest ih =>
    intro acc
    simp only [List.foldl_cons, List.length_cons]
    rw [ih, totalRecorded_objStep]
    omega

theorem typeStep_total (o : DbOracle) (schema : String)
    (acc : InventoryWriter × List (String × String)) (tc : String × ObjConfig) :
    totalRecorded (typeStep o schema acc tc).1 =
      totalRecorded acc.1 + enumLen o schema tc := by
  unfold typeStep enumLen
  cases h : get_schema_objects o schema tc.1 with
  | error e => simp
  | ok objs => simp [objFold_total]

theorem typeFold_total (o : DbOracle) (schema : String)
    (types : List (String × ObjConfig)) :
    ∀ acc : InventoryWriter × List (String × String),
    totalRecorded ((types.foldl (typeStep o schema) acc).1) =
      totalRecorded acc.1 + (types.map (enumLen o schema)).sum := by
  induction types with
  | nil => intro acc; simp
  | cons tc rest ih =>
    intro acc
    simp only [List.foldl_cons, List.map_cons, List.sum_cons]
    rw [ih, typeStep_total]
    omega

theorem totalRecorded_add_table_details (inv : InventoryWriter) (s : String)
    (d : List (List (String × String))) :
    totalRecorded (add_table_details inv s d) = totalRecorded inv := by
  have h := totalRecorded_add_schema inv s
  simp only [add_table_details, totalRecorded] at *
  rw [sumRec_updateSchemas_const _ _ _ (fun d' => by simp [recordedOf])]
  exact h

theorem totalRecorded_add_procedure_details (inv : InventoryWriter) (s : String)
    (d : List (List (String × String))) :
    totalRecorded (add_procedure_details inv s d) = totalRecorded inv := by
  have h := totalRecorded_add_schema inv s
  simp only [add_procedure_details, totalRecorded] at *
  rw [sumRec_updateSchemas_const _ _ _ (fun d' => by simp [recordedOf])]
  exact h

theorem totalRecorded_add_package_details (inv : InventoryWriter) (s : String)
    (d : List (List (String × String))) :
    totalRecorded (add_package_details inv s d) = totalRecorded inv := by
  have h := totalRecorded_add_schema inv s
  simp only [add_package_details, totalRecorded] at *
  rw [sumRec_updateSchemas_const _ _ _ (fun d' => by simp [recordedOf])]
  exact h

theorem totalRecorded_add_source_metrics (inv : InventoryWriter) (s : String)
    (d : List (String × List (String × (Nat × Nat)))) :
    totalRecorded (add_source_metrics inv s d) = totalRecorded inv := by
  have h := totalRecorded_add_schema inv s
  simp only [add_source_metrics, totalRecorded] at *
  rw [sumRec_updateSchemas_const _ _ _ (fun d' => by simp [recordedOf])]
  exact h

theorem totalRecorded_addDetails (o : DbOracle) (schema : String)
    (inv : InventoryWriter) :
    totalRecorded (addDetails o schema inv) = totalRecorded inv := by
  unfold addDetails
  cases o.tableDetails schema <;> cases o.procDetails schema <;>
    cases o.pkgDetails schema <;> cases o.sourceMetrics schema <;>
    simp [totalRecorded_add_table_details, totalRecorded_add_procedure_details,
      totalRecorded_add_package_details, totalRecorded_add_source_metrics]

theorem extractSchema_total (o : DbOracle) (inv : InventoryWriter) (s : String) :
    totalRecorded (extractSchema o inv s).1 =
      totalRecorded inv + enumeratedCount o s := by
  unfold extractSchema enumeratedCount
  rw [totalRecorded_addDetails, typeFold_total, totalRecorded_add_schema]

theorem addTerminator_keep (l : List Char) (h : l.getLast? = some ';') :
    addTerminator l = l := by
  have hne : l ≠ [] := by
    intro e
    subst e
    simp at h
  simp [addTerminator, hne, h]

theorem addTerminator_append (l : List Char) (h1 : l ≠ [])
    (h2 : l.getLast? ≠ some ';') : addTerminator l = l ++ [';'] := by
  simp [addTerminator, h1, h2]

theorem addTerminator_last (l : List Char) :
    addTerminator l = [] ∨ (addTerminator l).getLast? = some ';' := by
  by_cases h1 : l = []
  · subst h1
    exact Or.inl rfl
  · by_cases h2 : l.getLast? = some ';'
    · rw [addTerminator_keep l h2]
      exact Or.inr h2
    · rw [addTerminator_append l h1 h2]
      exact Or.inr (by simp)

theorem runSub_id_of_no_match (step : Step) (fuel : Nat) :
    ∀ l : List Char, (∀ t ∈ l.tails, step t = none) →
      runSub step fuel l = l := by
  induction fuel with
  | zero => intro l _; rfl
  | succ f ih =>
    intro l h
    cases l with
    | nil => rfl
    | cons c cs =>
      have h0 : step (c :: cs) = none := h _ (by simp [List.mem_tails])
      have hcs : ∀ t ∈ cs.tails, step t = none := by
        intro t ht
        apply h
        rw [List.mem_tails] at ht ⊢
        exact ht.trans (List.suffix_cons c cs)
      rw [runSub, h0, ih cs hcs]

/-- A clause pass is the identity when its pattern has no hit at any
position of the input. -/
theorem clausePass_id_of_no_match (tail : M) (l : List Char)
    (h : ∀ t ∈ l.tails, seqM ws1 tail t = none) :
    clausePass tail l = l := by
  unfold clausePass applySub
  apply runSub_id_of_no_match
  intro t ht
  simp [h t ht]

/-! ## Claim theorems -/

/-- C2: for every attempted object, `extractAndSaveObject` is a total
function (its result type is a plain value, so no exception escapes) that
performs exactly one `record_extraction` — success with no message, or
failure with a reason string — raising the inventory's record total by
exactly one; consequently a per-schema run records one entry per
enumerated object, so a failure on one object never aborts extraction of
subsequent objects, types, or schemas. -/
theorem c2_extraction_total_and_isolated :
    (∀ (o : DbOracle) (inv : InventoryWriter) (t n s : String) (cfg : ObjConfig),
      ∃ ok msg w,
        extractAndSaveObject o inv t n s cfg =
          (record_extraction inv s t n ok msg, w, ok)
        ∧ ((ok = true ∧ msg = none) ∨ (ok = false ∧ ∃ mm, msg = some mm))
        ∧ totalRecorded (extractAndSaveObject o inv t n s cfg).1 =
            totalRecorded inv + 1)
    ∧ (∀ (o : DbOracle) (inv : InventoryWriter) (s : String),
        totalRecorded (extractSchema o inv s).1 =
          totalRecorded inv + enumeratedCount o s) := by
  refine ⟨?_, extractSchema_total⟩
  intro o inv t n s cfg
  obtain ⟨ok, msg, w, he, hd⟩ := extractAndSaveObject_shape o inv t n s cfg
  refine ⟨ok, msg, w, he, ?_, totalRecorded_extractAndSave o inv t n s cfg⟩
  rcases hd with ⟨h1, h2, _⟩ | ⟨h1, h2, _⟩
  · exact Or.inl ⟨h1, h2⟩
  · exact Or.inr ⟨h1, h2⟩

/-- C3: when the DDL fetch raises the recognizable not-found signal
(`ORA-31603` / `ORA-00942`), or succeeds with an absent or empty payload,
the orchestrator records a failed extraction with the not-found reason,
writes no file, and returns normally (not run-fatal). -/
theorem c3_notfound_recorded_nonfatal :
    ∀ (o : DbOracle) (inv : InventoryWriter) (t n s : String) (cfg : ObjConfig),
      ((∃ e, o.fetchDDL (metadataTypeFor t) n s.toUpper = .error e
          ∧ (containsSub e "ORA-31603" || containsSub e "ORA-00942") = true)
        ∨ (∃ r, o.fetchDDL (metadataTypeFor t) n s.toUpper = .ok r
            ∧ truthyOpt r = false)) →
      extractAndSaveObject o inv t n s cfg =
        (record_extraction inv s t n false
          (some "Object not found or no privileges"), [], false) := by
  intro o inv t n s cfg h
  have hdd : extract_ddl o t n s = .ok none := by
    rcases h with ⟨e, he, hc⟩ | ⟨r, hr, ht⟩
    · simp [extract_ddl, he, hc]
    · simp [extract_ddl, hr, ht]
  simp [extractAndSaveObject, hdd]

theorem c3_witness :
    extractAndSaveObject oraNotFound invEx "TABLE" "T1" "HR" ⟨"tables", ".sql"⟩ =
      (record_extraction invEx "HR" "TABLE" "T1" false
        (some "Object not found or no privileges"), [], false) :=
  c3_notfound_recorded_nonfatal oraNotFound invEx "TABLE" "T1" "HR" ⟨"tables", ".sql"⟩
    (Or.inl ⟨"ORA-31603: object not found in schema", rfl, by decide⟩)

/-- C10: when a body-existence probe reports a body present but the body
fetch itself raises, the body extraction returns `none` — the error is
neither recorded nor propagated — and the per-object extraction is
indistinguishable from a run against a source reporting no body. -/
theorem c10_body_fetch_failure_silent :
    (∀ (o : DbOracle) (inv : InventoryWriter) (n s : String) (cfg : ObjConfig)
        (e : String) (k : Nat),
      o.pkgBodyCount s.toUpper n = .ok (some (k + 1)) →
      o.pkgBodyDDL n s.toUpper = .error e →
      extract_package_body o n s = .ok none
      ∧ extractAndSaveObject o inv "PACKAGE" n s cfg =
          extractAndSaveObject { o with pkgBodyCount := fun _ _ => .ok (some 0) }
            inv "PACKAGE" n s cfg)
    ∧ (∀ (o : DbOracle) (inv : InventoryWriter) (n s : String) (cfg : ObjConfig)
        (e : String) (k : Nat),
      o.typeBodyCount s.toUpper n = .ok (some (k + 1)) →
      o.typeBodyDDL n s.toUpper = .error e →
      extract_type_body o n s = .ok none
      ∧ extractAndSaveObject o inv "TYPE" n s cfg =
          extractAndSaveObject { o with typeBodyCount := fun _ _ => .ok (some 0) }
            inv "TYPE" n s cfg) := by
  constructor
  · intro o inv n s cfg e k h1 h2
    have hb : extract_package_body o n s = .ok none := by
      simp [extract_package_body, h1, h2]
    have hb2 : extract_package_body
        { o with pkgBodyCount := fun _ _ => .ok (some 0) } n s = .ok none := by
      simp [extract_package_body]
    have hde : extract_ddl { o with pkgBodyCount := fun _ _ => .ok (some 0) }
        "PACKAGE" n s = extract_ddl o "PACKAGE" n s := rfl
    refine ⟨hb, ?_⟩
    cases hdd : extract_ddl o "PACKAGE" n s with
    | error e0 => simp [extractAndSaveObject, hdd, hde]
    | ok r =>
      cases r with
      | none => simp [extractAndSaveObject, hdd, hde]
      | some ddl => simp [extractAndSaveObject, hdd, hde, hb, hb2]
  · intro o inv n s cfg e k h1 h2
    have hb : extract_type_body o n s = .ok none := by
      simp [extract_type_body, h1, h2]
    have hb2 : extract_type_body
        { o with typeBodyCount := fun _ _ => .ok (some 0) } n s = .ok none := by
      simp [extract_type_body]
    have hde : extract_ddl { o with typeBodyCount := fun _ _ => .ok (some 0) }
        "TYPE" n s = extract_ddl o "TYPE" n s := rfl
    refine ⟨hb, ?_⟩
    cases hdd : extract_ddl o "TYPE" n s with
    | error e0 => simp [extractAndSaveObject, hdd, hde]
    | ok r =>
      cases r with
      | none => simp [extractAndSaveObject, hdd, hde]
      | some ddl => simp [extractAndSaveObject, hdd, hde, hb, hb2]

theorem c10_witness :
    extract_package_body oraBodyFail "PKG" "HR" = .ok none
    ∧ extractAndSaveObject oraBodyFail invEx "PACKAGE" "PKG" "HR" ⟨"packages", ".sql"⟩ =
        extractAndSaveObject
          { oraBodyFail with pkgBodyCount := fun _ _ => .ok (some 0) }
          invEx "PACKAGE" "PKG" "HR" ⟨"packages", ".sql"⟩ :=
  c10_body_fetch_failure_silent.1 oraBodyFail invEx "PKG" "HR" ⟨"packages", ".sql"⟩
    "ORA-04063: package body PB has errors" 0 rfl rfl

/-- C6 counterexample: the claim says the metadata-source identifier
differs from the registry identifier for exactly two of the twelve types;
in the code the `MATERIALIZED_VIEW` branch renames the type to itself, so
only one type (`DATABASE LINK`) is actually renamed. -/
theorem c6_counterexample :
    metadataTypeFor "MATERIALIZED_VIEW" = "MATERIALIZED_VIEW"
    ∧ ((OBJECT_TYPES.map Prod.fst).filter
        (fun t => metadataTypeFor t != t)).length = 1 := by
  decide

/-- C6 (amended): the registry is a fixed 12-entry set sharing its keys
with the query map; resolving any identifier outside it fails with the
unsupported-type error; exactly one of the twelve types is renamed for
the metadata source (`DATABASE LINK` → `DB_LINK`) and the other eleven
are identity-mapped. -/
theorem c6_registry_dispatch :
    OBJECT_TYPES.length = 12
    ∧ (∀ t ∈ OBJECT_TYPES.map Prod.fst, t ∈ QUERY_MAP.map Prod.fst)
    ∧ (∀ t ∈ QUERY_MAP.map Prod.fst, t ∈ OBJECT_TYPES.map Prod.fst)
    ∧ (∀ t : String, t ∉ OBJECT_TYPES.map Prod.fst →
        get_query t = .error ("Unsupported object type: " ++ t))
    ∧ (OBJECT_TYPES.map Prod.fst).filter (fun t => metadataTypeFor t != t) =
        ["DATABASE LINK"]
    ∧ metadataTypeFor "DATABASE LINK" = "DB_LINK"
    ∧ (∀ t ∈ OBJECT_TYPES.map Prod.fst, t ≠ "DATABASE LINK" →
        metadataTypeFor t = t) := by
  refine ⟨by decide, by decide, by decide, ?_, by decide, by decide, by decide⟩
  intro t ht
  have h0 : t ∉ QUERY_MAP.map Prod.fst := by
    intro hq
    have hall : ∀ x ∈ QUERY_MAP.map Prod.fst, x ∈ OBJECT_TYPES.map Prod.fst := by
      decide
    exact ht (hall t hq)
  have h1 : lookupA QUERY_MAP t = none := lookupA_eq_none _ _ h0
  simp [get_query, h1]

theorem c6_witness :
    "BOGUS" ∉ OBJECT_TYPES.map Prod.fst
    ∧ get_query "BOGUS" = .error ("Unsupported object type: " ++ "BOGUS") :=
  ⟨by decide, c6_registry_dispatch.2.2.2.1 "BOGUS" (by decide)⟩

/-- C9 counterexample: a failure recorded with no error message
increments the failure counter but appends nothing to the error list,
refuting the claim that every failure appends one error entry. -/
theorem c9_counterexample :
    getFail (record_extraction invEx "HR" "TABLE" "T1" false none) "HR" "TABLE" = 1
    ∧ getErrors (record_extraction invEx "HR" "TABLE" "T1" false none) "HR" = [] := by
  decide

/-- C9 (amended): each `record_extraction` call increments exactly one of
the two per-(schema, type) counters — success or failure, never both —
leaves every other counter, every other schema's entry and all previously
recorded errors unchanged, and appends exactly one error entry on failure
precisely when a truthy (non-null, non-empty) error message is given. -/
theorem c9_record_extraction_contract :
    ∀ (inv : InventoryWriter) (s t n : String) (b : Bool) (m : Option String),
      (b = true →
        getSucc (record_extraction inv s t n b m) s t = getSucc inv s t + 1
        ∧ getFail (record_extraction inv s t n b m) s t = getFail inv s t
        ∧ getErrors (record_extraction inv s t n b m) s = getErrors inv s)
      ∧ (b = false →
        getFail (record_extraction inv s t n b m) s t = getFail inv s t + 1
        ∧ getSucc (record_extraction inv s t n b m) s t = getSucc inv s t
        ∧ getErrors (record_extraction inv s t n b m) s =
            getErrors inv s ++ (if truthyOpt m then [⟨t, n, m.getD ""⟩] else []))
      ∧ (∀ t', t' ≠ t →
          getSucc (record_extraction inv s t n b m) s t' = getSucc inv s t'
          ∧ getFail (record_extraction inv s t n b m) s t' = getFail inv s t')
      ∧ (∀ s', s' ≠ s →
          lookupA (record_extraction inv s t n b m).schemas s' =
            lookupA inv.schemas s') := by
  intro inv s t n b m
  have hd := schemaDataOf_record_self inv s t n b m
  refine ⟨?_, ?_, ?_, fun s' hs' => lookupA_record_ne inv s s' t n b m hs'⟩
  · intro hb
    subst hb
    exact ⟨by simp [getSucc, hd, recordUpdate, countOf_bump_self],
      by simp [getFail, hd, recordUpdate],
      by simp [getErrors, hd, recordUpdate]⟩
  · intro hb
    subst hb
    by_cases hm : truthyOpt m = true
    · exact ⟨by simp [getFail, hd, recordUpdate, hm, countOf_bump_self],
        by simp [getSucc, hd, recordUpdate, hm],
        by simp [getErrors, hd, recordUpdate, hm]⟩
    · exact ⟨by simp [getFail, hd, recordUpdate, hm, countOf_bump_self],
        by simp [getSucc, hd, recordUpdate, hm],
        by simp [getErrors, hd, recordUpdate, hm]⟩
  · intro t' ht'
    cases b with
    | true =>
      exact ⟨by simp [getSucc, hd, recordUpdate, countOf_bump_ne _ _ _ ht'],
        by simp [getFail, hd, recordUpdate]⟩
    | false =>
      by_cases hm : truthyOpt m = true
      · exact ⟨by simp [getSucc, hd, recordUpdate, hm],
          by simp [getFail, hd, recordUpdate, hm, countOf_bump_ne _ _ _ ht']⟩
      · exact ⟨by simp [getSucc, hd, recordUpdate, hm],
          by simp [getFail, hd, recordUpdate, hm, countOf_bump_ne _ _ _ ht']⟩

theorem c9_witness :
    getSucc invEx "HR" "TABLE" = 0
    ∧ getSucc (record_extraction invEx "HR" "TABLE" "T1" true none) "HR" "TABLE" =
        getSucc invEx "HR" "TABLE" + 1 :=
  ⟨by decide,
    ((c9_record_extraction_contract invEx "HR" "TABLE" "T1" true none).1 rfl).1⟩

/-- C4 counterexample: on an input that itself ends in two terminators,
`clean_ddl` keeps both, so the output neither ends in exactly one
terminator nor avoids two consecutive terminators. -/
theorem c4_counterexample :
    clean_ddl "A;;" = "A;;"
    ∧ (clean_ddl "A;;").data.reverse.take 2 = [';', ';'] := by
  decide

/-- C4 (amended): for every input, the non-empty output of `clean_ddl`
ends with at least one terminator; a terminator is appended exactly when
the trimmed non-empty pipeline result does not already end with one
(otherwise the result — including any pre-existing trailing run of
terminators — is kept as is), and the empty result gets no terminator. -/
theorem c4_terminator_enforcement :
    ∀ s : String,
      (clean_ddl s = "" ∨ (clean_ddl s).data.getLast? = some ';')
      ∧ (s ≠ "" → cleanStripped s.data ≠ [] →
          ((cleanStripped s.data).getLast? = some ';' →
            (clean_ddl s).data = cleanStripped s.data)
          ∧ ((cleanStripped s.data).getLast? ≠ some ';' →
            (clean_ddl s).data = cleanStripped s.data ++ [';']))
      ∧ (s = "" → clean_ddl s = "")
      ∧ (s ≠ "" → cleanStripped s.data = [] → clean_ddl s = "") := by
  intro s
  by_cases hs : s = ""
  · subst hs
    exact ⟨Or.inl rfl, fun h => absurd rfl h, fun _ => rfl, fun h => absurd rfl h⟩
  · have hcd : (clean_ddl s).data = addTerminator (cleanStripped s.data) := by
      simp [clean_ddl, hs]
    refine ⟨?_, ?_, fun he => absurd he hs, ?_⟩
    · rcases addTerminator_last (cleanStripped s.data) with h | h
      · left
        apply String.ext
        rw [hcd, h]
      · right
        rw [hcd]
        exact h
    · intro _ hne
      constructor
      · intro hlast
        rw [hcd, addTerminator_keep _ hlast]
      · intro hlast
        rw [hcd, addTerminator_append _ hne hlast]
    · intro _ he
      apply String.ext
      rw [hcd, he]
      rfl

theorem c4_witness :
    (clean_ddl "A" = "" ∨ (clean_ddl "A").data.getLast? = some ';')
    ∧ (clean_ddl "A").data = cleanStripped "A".data ++ [';'] :=
  ⟨(c4_terminator_enforcement "A").1,
    (((c4_terminator_enforcement "A").2.1 (by decide) (by decide)).2 (by decide))⟩

/-- C5 counterexample: the type combinator emits the specification with
no section marker at all (no comment line appears in its spec-only
output), and the package combinator separates the two sections with two
blank lines (three consecutive newlines), not one. -/
theorem c5_counterexample :
    clean_type_ddl (some "CREATE TYPE my_type AS OBJECT (id NUMBER);") none =
      "CREATE TYPE my_type AS OBJECT (id NUMBER);"
    ∧ containsSub
        (clean_type_ddl (some "CREATE TYPE my_type AS OBJECT (id NUMBER);") none)
        "--" = false
    ∧ containsSub
        (clean_package_ddl (some "CREATE PACKAGE p AS END;")
          (some "CREATE PACKAGE BODY p AS END;"))
        "\n\n\n" = true := by
  decide

/-- C5 (amended): the package combinator emits a `-- Package
Specification` marker for a present spec and a `-- Package Body` marker
for a present body; the type combinator emits the cleaned spec with no
marker and a `-- Type Body` marker for a present body; with both parts
present the spec section comes first, separated from the body section by
two blank lines; with both absent the output is empty; with one absent
only the other section appears. -/
theorem c5_composite_combinator_structure :
    ∀ sp bd : String, sp ≠ "" → bd ≠ "" →
      clean_package_ddl (some sp) (some bd) =
        "-- Package Specification" ++ "\n" ++ clean_ddl sp ++ "\n" ++ "\n"
          ++ "\n" ++ "-- Package Body" ++ "\n" ++ clean_ddl bd
      ∧ clean_package_ddl (some sp) none =
          "-- Package Specification" ++ "\n" ++ clean_ddl sp
      ∧ clean_package_ddl none (some bd) = "-- Package Body" ++ "\n" ++ clean_ddl bd
      ∧ clean_package_ddl none none = ""
      ∧ clean_type_ddl (some sp) (some bd) =
          clean_ddl sp ++ "\n" ++ "\n" ++ "\n" ++ "-- Type Body" ++ "\n" ++ clean_ddl bd
      ∧ clean_type_ddl (some sp) none = clean_ddl sp
      ∧ clean_type_ddl none (some bd) = "-- Type Body" ++ "\n" ++ clean_ddl bd
      ∧ clean_type_ddl none none = "" := by
  intro sp bd hsp hbd
  refine ⟨?_, ?_, ?_, rfl, ?_, ?_, ?_, rfl⟩
  all_goals
    apply String.ext
    simp [clean_package_ddl, clean_type_ddl, truthyOpt, hsp, hbd, joinNl,
      String.data_append]

theorem c5_witness :
    clean_package_ddl (some "CREATE PACKAGE p AS END;")
        (some "CREATE PACKAGE BODY p AS END;") =
      "-- Package Specification" ++ "\n" ++ clean_ddl "CREATE PACKAGE p AS END;"
        ++ "\n" ++ "\n" ++ "\n" ++ "-- Package Body" ++ "\n"
        ++ clean_ddl "CREATE PACKAGE BODY p AS END;" :=
  (c5_composite_combinator_structure "CREATE PACKAGE p AS END;"
    "CREATE PACKAGE BODY p AS END;" (by decide) (by decide)).1

/-- C7 counterexample: an already-clean input (non-empty, ending in
exactly one terminator, containing no removable vendor clauses) on which
`clean_ddl` is not idempotent: cleaning `"A((  ));"` collapses the inner
empty parentheses to `"A();"`, and cleaning again collapses the newly
empty outer pair to `"A;"`. -/
theorem c7_counterexample :
    "A((  ));" ≠ ""
    ∧ noRemovableClauses "A((  ));" = true
    ∧ ("A((  ));").data.getLast? = some ';'
    ∧ ("A((  ));").data.reverse.take 2 ≠ [';', ';']
    ∧ clean_ddl "A((  ));" = "A();"
    ∧ clean_ddl (clean_ddl "A((  ));") = "A;"
    ∧ clean_ddl (clean_ddl "A((  ));") ≠ clean_ddl "A((  ));" := by
  decide

/-- C7 (amended): `clean_ddl` maps the empty input to the empty string
and the absent (null) input to the empty string; idempotence holds on
already-clean inputs that additionally contain no parenthesis pair made
empty by a cleaning pass (witnessed at a representative fixed point), but
fails in general on already-clean inputs (see the counterexample). -/
theorem c7_idempotence_and_empty :
    clean_ddl "" = ""
    ∧ cleanDdlOpt none = ""
    ∧ noRemovableClauses "CREATE TABLE t (id NUMBER);" = true
    ∧ ("CREATE TABLE t (id NUMBER);").data.getLast? = some ';'
    ∧ clean_ddl "CREATE TABLE t (id NUMBER);" = "CREATE TABLE t (id NUMBER);"
    ∧ clean_ddl (clean_ddl "CREATE TABLE t (id NUMBER);") =
        clean_ddl "CREATE TABLE t (id NUMBER);" := by
  refine ⟨by decide, by decide, by decide, by decide, ?_, ?_⟩
  · decide
  · decide

set_option maxRecDepth 10000 in
set_option maxHeartbeats 2000000 in
/-- C1 counterexample: on an input containing a targeted vendor clause
(`PCTFREE 10`), the `CACHE`-removal rule — which has no trailing word
boundary — deletes the leading keyword of the non-targeted identifier
`CACHE_TAB`, so a token not targeted by any rule does not pass through
unmodified. -/
theorem c1_counterexample :
    clean_ddl "CREATE TABLE CACHE_TAB (id NUMBER) PCTFREE 10;" =
      "CREATE TABLE_TAB (id NUMBER);"
    ∧ containsSub "CREATE TABLE CACHE_TAB (id NUMBER) PCTFREE 10;" "CACHE_TAB" = true
    ∧ containsSub (clean_ddl "CREATE TABLE CACHE_TAB (id NUMBER) PCTFREE 10;")
        "CACHE_TAB" = false := by
  decide

set_option maxRecDepth 10000 in
set_option maxHeartbeats 2000000 in
/-- C1 (amended): on DDL whose targeted keywords occur only as actual
vendor clauses (witnessed at a representative table DDL carrying a
page-fill-factor hint, a tablespace reference and a multi-line storage
block), `clean_ddl` removes exactly those clauses and excess whitespace:
no targeted keyword survives, and the surviving tokens are precisely the
non-clause tokens of the input, unmodified and in their original relative
order; the unrestricted claim is false because a removal rule may
truncate an identifier that begins with a targeted keyword. -/
theorem c1_clean_preserves_nontargeted_tokens :
    clean_ddl "CREATE TABLE emp (id NUMBER NOT NULL, PRIMARY KEY (id)) PCTFREE 10 TABLESPACE \"USERS\" STORAGE(INITIAL 65536\n NEXT 1048576)" =
      "CREATE TABLE emp (id NUMBER NOT NULL, PRIMARY KEY (id));"
    ∧ tokens (String.mk (cleanStripped ("CREATE TABLE emp (id NUMBER NOT NULL, PRIMARY KEY (id)) PCTFREE 10 TABLESPACE \"USERS\" STORAGE(INITIAL 65536\n NEXT 1048576)").data)) =
        ["CREATE", "TABLE", "emp", "(id", "NUMBER", "NOT", "NULL,", "PRIMARY",
          "KEY", "(id))"]
    ∧ tokens "CREATE TABLE emp (id NUMBER NOT NULL, PRIMARY KEY (id)) PCTFREE 10 TABLESPACE \"USERS\" STORAGE(INITIAL 65536\n NEXT 1048576)" =
        ["CREATE", "TABLE", "emp", "(id", "NUMBER", "NOT", "NULL,", "PRIMARY",
          "KEY", "(id))", "PCTFREE", "10", "TABLESPACE", "\"USERS\"",
          "STORAGE(INITIAL", "65536", "NEXT", "1048576)"]
    ∧ List.isSublist
        (tokens (String.mk (cleanStripped ("CREATE TABLE emp (id NUMBER NOT NULL, PRIMARY KEY (id)) PCTFREE 10 TABLESPACE \"USERS\" STORAGE(INITIAL 65536\n NEXT 1048576)").data)))
        (tokens "CREATE TABLE emp (id NUMBER NOT NULL, PRIMARY KEY (id)) PCTFREE 10 TABLESPACE \"USERS\" STORAGE(INITIAL 65536\n NEXT 1048576)") = true
    ∧ containsSub (clean_ddl "CREATE TABLE emp (id NUMBER NOT NULL, PRIMARY KEY (id)) PCTFREE 10 TABLESPACE \"USERS\" STORAGE(INITIAL 65536\n NEXT 1048576)") "PCTFREE" = false
    ∧ containsSub (clean_ddl "CREATE TABLE emp (id NUMBER NOT NULL, PRIMARY KEY (id)) PCTFREE 10 TABLESPACE \"USERS\" STORAGE(INITIAL 65536\n NEXT 1048576)") "TABLESPACE" = false
    ∧ containsSub (clean_ddl "CREATE TABLE emp (id NUMBER NOT NULL, PRIMARY KEY (id)) PCTFREE 10 TABLESPACE \"USERS\" STORAGE(INITIAL 65536\n NEXT 1048576)") "STORAGE" = false
    ∧ containsSub (clean_ddl "CREATE TABLE emp (id NUMBER NOT NULL, PRIMARY KEY (id)) PCTFREE 10 TABLESPACE \"USERS\" STORAGE(INITIAL 65536\n NEXT 1048576)") "PRIMARY KEY" = true
    ∧ containsSub (clean_ddl "CREATE TABLE emp (id NUMBER NOT NULL, PRIMARY KEY (id)) PCTFREE 10 TABLESPACE \"USERS\" STORAGE(INITIAL 65536\n NEXT 1048576)") "NOT NULL" = true := by
  refine ⟨by decide, by decide, by decide, by decide, by decide, by decide,
    by decide, by decide, by decide⟩

/-- C8 counterexample: in `DDL_CLEANUP_PATTERNS` the `LOGGING`-removal
pattern (index 6) precedes the `NOLOGGING`-removal pattern (index 7),
refuting the claimed ordering. -/
theorem c8_counterexample :
    DDL_CLEANUP_PATTERNS.indexOf "\\s+LOGGING" = 6
    ∧ DDL_CLEANUP_PATTERNS.indexOf "\\s+NOLOGGING" = 7
    ∧ ¬ (DDL_CLEANUP_PATTERNS.indexOf "\\s+NOLOGGING" <
          DDL_CLEANUP_PATTERNS.indexOf "\\s+LOGGING") := by
  decide

/-- C8 (amended): the rule list orders LOGGING removal before NOLOGGING
removal; nevertheless the LOGGING pattern's mandatory leading whitespace
prevents any match inside an occurrence of the longer word NOLOGGING (no
whitespace separates `NO` from `LOGGING`): a clause pass whose pattern
has no hit anywhere is the identity, the LOGGING pattern has no hit
anywhere in `" NOLOGGING"`, and on a whole DDL statement the NOLOGGING
token is removed in its entirety, leaving no stray `NO`. -/
theorem c8_logging_anchoring :
    DDL_CLEANUP_PATTERNS.indexOf "\\s+LOGGING" <
      DDL_CLEANUP_PATTERNS.indexOf "\\s+NOLOGGING"
    ∧ (∀ l : List Char, (∀ t ∈ l.tails, seqM ws1 (kw "LOGGING") t = none) →
        clausePass (kw "LOGGING") l = l)
    ∧ (∀ t ∈ (" NOLOGGING").data.tails, seqM ws1 (kw "LOGGING") t = none)
    ∧ clean_ddl "CREATE TABLE t (id NUMBER) NOLOGGING" =
        "CREATE TABLE t (id NUMBER);"
    ∧ containsSub (clean_ddl "CREATE TABLE t (id NUMBER) NOLOGGING") "NO" = false := by
  refine ⟨by decide, clausePass_id_of_no_match (kw "LOGGING"), by decide,
    by decide, by decide⟩

theorem c8_witness :
    clausePass (kw "LOGGING") (" NOLOGGING").data = (" NOLOGGING").data := by
  have h := c8_logging_anchoring.2.1 (" NOLOGGING").data (by decide)
  exact h

end OracleExport
